import Mathlib

/-!
Verification of the buffer-object module `vispy/oogl/vbo.py`.

We give a shallow embedding of the module's data model and operations:
numpy arrays become a record of dtype and shape, the OpenGL binding
becomes a trace of emitted device calls, Python exceptions become an
`Except` error type, and Python object identity for `Buffer` objects is
modelled by references into an explicit heap.
-/

set_option autoImplicit false

namespace Vbo

/-! ## OpenGL constants and the DTYPES table (vbo.py lines 22-27) -/

def GL_ARRAY_BUFFER : Nat := 34962
def GL_ELEMENT_ARRAY_BUFFER : Nat := 34963
def GL_UNSIGNED_BYTE : Nat := 5121
def GL_BYTE : Nat := 5120
def GL_UNSIGNED_SHORT : Nat := 5123
def GL_SHORT : Nat := 5122
def GL_FLOAT : Nat := 5126
def GL_HALF_FLOAT : Nat := 36193

/-- The `DTYPES` dict: dtype names that OpenGL ES 2.0 understands,
mapped to the GL format enums. -/
def DTYPES : List (String × Nat) :=
  [("uint8", GL_UNSIGNED_BYTE), ("int8", GL_BYTE),
   ("uint16", GL_UNSIGNED_SHORT), ("int16", GL_SHORT),
   ("float32", GL_FLOAT),
   ("float16", GL_HALF_FLOAT)]

/-- Python `name in DTYPES` (dict key membership). -/
def inDTYPES (s : String) : Bool := (DTYPES.lookup s).isSome

/-! ## Python exceptions raised by the module -/

inductive PyErr where
  | valueError      -- ValueError ("InvalidArgument" in the spec)
  | runtimeError    -- RuntimeError ("IllegalState" in the spec)
  | assertionError  -- failed `assert`
  | attributeError  -- access to a never-assigned attribute
  | typeError       -- e.g. subscripting None
  deriving DecidableEq, Repr

/-! ## Device calls: the GL functions the module invokes, as a trace -/

inductive GLCall where
  | genBuffers
  | deleteBuffers (handle : Int)
  | bindBuffer (target : Nat) (handle : Int)
  | bufferData (target : Nat) (nbytes : Nat)          -- full upload
  | bufferSubData (target : Nat) (offset : Int) (nbytes : Nat)  -- sub-range update
  deriving DecidableEq, Repr

/-! ## numpy arrays, as far as the module inspects them

The module reads `data.nbytes`, `data.ndim`, `data.shape`, `data.size`,
`data.dtype.name`, `data.dtype.itemsize`, `data.dtype.fields` (with each
field's `subdtype`), and calls `data.astype(np.float32)`. -/

/-- One entry of `dtype.fields`: field name, the field's dtype (base
scalar name plus optional sub-array shape, i.e. `subdtype`), and the
field's byte offset within the record. -/
structure FieldType where
  baseName : String
  subshape : Option (List Nat)
  deriving DecidableEq, Repr

structure DType where
  name : String
  itemsize : Nat
  fields : Option (List (String × FieldType × Int))
  deriving DecidableEq, Repr

/-- Python truthiness of `data.dtype.fields` (None or an empty mapping
are falsy). -/
def DType.hasFields (d : DType) : Bool :=
  match d.fields with
  | some fs => !fs.isEmpty
  | none => false

structure NDArray where
  dtype : DType
  shape : List Nat
  deriving DecidableEq, Repr

def NDArray.ndim (a : NDArray) : Nat := a.shape.length

def NDArray.size (a : NDArray) : Nat := a.shape.foldl (· * ·) 1

def NDArray.nbytes (a : NDArray) : Nat := a.size * a.dtype.itemsize

/-- `data.astype(np.float32)`: same shape, dtype becomes float32 (4 bytes,
no fields). Only reached on the plain-array paths of the module. -/
def NDArray.astypeFloat32 (a : NDArray) : NDArray :=
  { dtype := { name := "float32", itemsize := 4, fields := none }, shape := a.shape }

/-! ## unravel_dtype_fields (vbo.py lines 410-423) -/

/-- One value of the dict built by `unravel_dtype_fields`:
`(dtypename, size, offset)`, indexed in the source as `fieldinfo[0]`,
`fieldinfo[1]`, `fieldinfo[2]`. -/
structure FieldInfo where
  dtypename : String
  size : Nat
  offset : Int
  deriving DecidableEq, Repr

/-- `unravel_dtype_fields(dtype)`: for each field, take its subdtype's
base name and 1-axis shape (or the field's own dtype and shape `(1,)`),
asserting the sub-array shape has exactly one axis. -/
def unravel_dtype_fields (d : DType) : Except PyErr (List (String × FieldInfo)) :=
  match d.fields with
  | none => .ok []
  | some fs =>
    fs.mapM (fun nf =>
      let thisname_shape : String × List Nat :=
        match nf.2.1.subshape with
        | some sh => (nf.2.1.baseName, sh)
        | none => (nf.2.1.baseName, [1])
      match thisname_shape.2 with
      | [c] => .ok (nf.1, ⟨thisname_shape.1, c, nf.2.2⟩)
      | _ => .error .assertionError)

/-! ## Buffer (vbo.py lines 31-144)

`Buffer.__init__` does not call any base-class initializer and never
assigns `self._pending_data`; the attribute first exists after
`set_data`.  We model the attribute as `Option (Option (NDArray × Option Int))`:
`none` = attribute never assigned (reading it raises AttributeError),
`some none` = assigned `None`, `some (some (data, offset))` = a staged
pending pair. -/

structure Buffer where
  target : Nat
  handle : Int          -- 0 = uninitialized, < 0 = error, > 0 = live
  buffer_size : Int     -- `_buffer_size`; -1 before first set_data
  pending_data : Option (Option (NDArray × Option Int))  -- `_pending_data`
  deriving DecidableEq, Repr

namespace Buffer

/-- `Buffer.__init__(target)` (without the optional `data` argument):
rejects a target outside the two supported kinds. -/
def init (target : Nat) : Except PyErr Buffer :=
  if target = GL_ARRAY_BUFFER ∨ target = GL_ELEMENT_ARRAY_BUFFER then
    .ok { target := target, handle := 0, buffer_size := -1, pending_data := none }
  else
    .error .valueError

/-- `Buffer.nbytes` property. -/
def nbytes (b : Buffer) : Int := b.buffer_size

/-- `Buffer.set_data(data, offset=None)`.  The `isinstance(data, np.ndarray)`
check is satisfied statically here since `data : NDArray`.  If a prior
allocation failed (`handle < 0`) the handle and size are reset first.
With an explicit offset the caller-side assert `offset + data.nbytes <=
self._buffer_size` runs; without one, offset silently becomes 0 exactly
when `data.nbytes == self._buffer_size`.  Finally the pending pair is
staged and `_buffer_size` is set to `data.nbytes`. -/
def set_data (b : Buffer) (data : NDArray) (offset : Option Int) :
    Except PyErr Buffer :=
  let b := if b.handle < 0 then { b with handle := 0, buffer_size := 0 } else b
  match offset with
  | some off =>
    if (off + (data.nbytes : Int)) ≤ b.buffer_size then
      .ok { b with pending_data := some (some (data, some off)),
                   buffer_size := (data.nbytes : Int) }
    else
      .error .assertionError
  | none =>
    let off : Option Int :=
      if (data.nbytes : Int) = b.buffer_size then some 0 else none
    .ok { b with pending_data := some (some (data, off)),
                 buffer_size := (data.nbytes : Int) }

/-- Modelled from the spec: `GLObject.delete` (the base class lives in
`vispy/oogl/__init__.py`, which is not part of the sources here).  Spec
section 4.1: "dispose(): release the device handle if allocated;
idempotent".  Releases (emits a delete call for) a live handle and
resets the handle so a second call is a no-op. -/
def delete (b : Buffer) : Buffer × List GLCall :=
  if b.handle > 0 then ({ b with handle := 0 }, [.deleteBuffers b.handle])
  else ({ b with handle := 0 }, [])

/-- `Buffer._create`: the fresh handle the device would hand back is
passed in as `freshHandle`. -/
def create (b : Buffer) (freshHandle : Int) : Buffer × List GLCall :=
  ({ b with handle := freshHandle }, [.genBuffers])

/-- `Buffer._enable(self)`: early no-op return when the handle records an
error; otherwise consume pending data (AttributeError if the attribute
was never assigned), taking the sub-range-update path when an offset was
staged and the delete/recreate/upload path when not; always ends with a
bind of the (possibly new) handle. -/
def enable (b : Buffer) (freshHandle : Int) : Except PyErr (Buffer × List GLCall) :=
  if b.handle < 0 then
    .ok (b, [])
  else
    match b.pending_data with
    | none => .error .attributeError
    | some none => .ok (b, [.bindBuffer b.target b.handle])
    | some (some (data, offset)) =>
      let b1 : Buffer := { b with pending_data := some none }
      match offset with
      | some off =>
        .ok (b1, [.bindBuffer b1.target b1.handle,
                  .bufferSubData b1.target off data.nbytes,
                  .bindBuffer b1.target b1.handle])
      | none =>
        let del := b1.delete
        let cre := del.1.create freshHandle
        .ok (cre.1, del.2 ++ [.genBuffers,
                              .bindBuffer cre.1.target cre.1.handle,
                              .bufferData cre.1.target data.nbytes,
                              .bindBuffer cre.1.target cre.1.handle])

end Buffer

/-! ## A heap of Buffer objects

Python `Buffer` instances are mutable objects shared by reference
(several VertexBuffers may alias one Buffer).  We model object identity
as an index into a heap of Buffer states. -/

structure Heap where
  bufs : List Buffer
  deriving DecidableEq, Repr

def Heap.alloc (h : Heap) (b : Buffer) : Heap × Nat :=
  (⟨h.bufs ++ [b]⟩, h.bufs.length)

def Heap.get (h : Heap) (r : Nat) : Option Buffer := h.bufs[r]?

def Heap.put (h : Heap) (r : Nat) (b : Buffer) : Heap := ⟨h.bufs.set r b⟩

/-! ## VertexBuffer (vbo.py lines 148-327) -/

/-- `VertexBuffer._type`: either a plain dtype name, or (for structured
record data) the dict produced by `unravel_dtype_fields`. -/
inductive VType where
  | scalar (name : String)
  | fields (fs : List (String × FieldInfo))
  deriving DecidableEq, Repr

structure VertexBuffer where
  isview : Bool            -- `_isview`
  bufref : Nat             -- `_buffer`, as a heap reference
  offset : Int             -- `_offset` (bytes)
  stride : Int             -- `_stride` (bytes)
  shape : Option (Int × Nat)  -- `_shape`, None until data is set
  vtype : Option VType     -- `_type`, None until data is set
  deriving DecidableEq, Repr

/-- The `buffer` argument of `VertexBuffer.__init__`: absent (`None`), a
`Buffer` instance (as a heap reference), or some non-Buffer value. -/
inductive BufferArg where
  | none
  | buf (r : Nat)
  | other
  deriving DecidableEq, Repr

namespace VertexBuffer

/-- The state assembled by `VertexBuffer.__init__` before the optional
`set_data` call: not a view, offset and stride 0, shape and type None. -/
def fresh (r : Nat) : VertexBuffer :=
  { isview := false, bufref := r, offset := 0, stride := 0,
    shape := none, vtype := none }

/-- `VertexBuffer.set_data(data, offset=None)` (vbo.py lines 200-252).
Raises RuntimeError on a view before anything else.  Structured data
(truthy `data.dtype.fields`) goes through `unravel_dtype_fields` with
per-field asserts; plain data must be 1-D or 2-D with second axis in
{1,2,3,4} and is converted to float32 when its dtype is unsupported.
A nonzero own `_offset` is added to the given offset.  Finally `_stride`
is computed and the (possibly converted) data is delegated to the
underlying Buffer's `set_data`. -/
def set_data (hp : Heap) (v : VertexBuffer) (data : NDArray) (offset : Option Int) :
    Except PyErr (Heap × VertexBuffer) := do
  if v.isview then
    throw .runtimeError
  else
    -- `isinstance(data, np.ndarray)` holds statically.
    let (data2, newType, newShape) ←
      (if data.dtype.hasFields then do
        let flds ← unravel_dtype_fields data.dtype
        if flds.all (fun nf => inDTYPES nf.2.dtypename && (nf.2.size = 1 || nf.2.size = 2 || nf.2.size = 3 || nf.2.size = 4)) then
          pure (data, VType.fields flds, ((data.size : Int), 1))
        else
          throw .assertionError
      else
        match data.shape with
        | [n] =>
          let d2 := if inDTYPES data.dtype.name then data else data.astypeFloat32
          pure (d2, VType.scalar d2.dtype.name, ((n : Int), 1))
        | [n, m] =>
          if m = 1 ∨ m = 2 ∨ m = 3 ∨ m = 4 then
            let d2 := if inDTYPES data.dtype.name then data else data.astypeFloat32
            pure (d2, VType.scalar d2.dtype.name, ((n : Int), m))
          else
            throw .assertionError
        | _ => throw .assertionError
        : Except PyErr (NDArray × VType × Int × Nat))
    -- `if self._offset: offset = (offset or 0) + self._offset`
    let offset2 : Option Int :=
      if v.offset ≠ 0 then some ((offset.getD 0) + v.offset) else offset
    let stride : Int := (data2.dtype.itemsize : Int) * (newShape.2 : Int)
    match hp.get v.bufref with
    | none => throw .attributeError  -- unreachable for well-formed references
    | some buf => do
      let buf2 ← buf.set_data data2 offset2
      pure (hp.put v.bufref buf2,
            { v with vtype := some newType, shape := some newShape, stride := stride })

/-- `VertexBuffer.__init__(data=None, buffer=None)` followed by the
optional `set_data(data)` call (vbo.py lines 157-180): no buffer
argument allocates a fresh `GL_ARRAY_BUFFER` Buffer; a `Buffer` instance
is taken as-is (its target is not inspected); anything else raises
ValueError. -/
def initFull (hp : Heap) (data : Option NDArray) (bufArg : BufferArg) :
    Except PyErr (Heap × VertexBuffer) := do
  let (hp2, vb) ←
    (match bufArg with
     | .none => do
       let b ← Buffer.init GL_ARRAY_BUFFER
       let al := hp.alloc b
       pure (al.1, fresh al.2)
     | .buf r => pure (hp, fresh r)
     | .other => throw .valueError
     : Except PyErr (Heap × VertexBuffer))
  match data with
  | none => pure (hp2, vb)
  | some d => set_data hp2 vb d none

/-- The subscript passed to `VertexBuffer.__getitem__`: a string, a
slice (each component possibly absent), or some other value. -/
inductive Index where
  | str (s : String)
  | slice (start stop step : Option Int)
  | other
  deriving DecidableEq, Repr

/-- Python's `x or d` for an optional integer: `None` and `0` are falsy. -/
def pyOr (x : Option Int) (d : Int) : Int :=
  match x with
  | Option.none => d
  | some v => if v = 0 then d else v

/-- The evaluation of `stop = index.stop or self._shape[0]`: Python `or`
short-circuits, so `self._shape` is subscripted (raising TypeError when
it is still `None`) only when `index.stop` is `None` or `0`. -/
def sliceStop (shape : Option (Int × Nat)) (sp : Option Int) : Except PyErr Int :=
  match sp with
  | some x =>
    if x = 0 then
      match shape with
      | Option.none => .error .typeError
      | some sh => .ok sh.1
    else .ok x
  | Option.none =>
    match shape with
    | Option.none => .error .typeError
    | some sh => .ok sh.1

/-- `VertexBuffer.__getitem__(index)` (vbo.py lines 279-327).  A string
key requires `_type` to be a dict (RuntimeError otherwise) and a known
field name (ValueError otherwise); a slice takes defaults via Python
`or` and asserts `start >= 0`, `step >= 1`, `stop > 0`; any other index
raises ValueError.  The result is a new VertexBuffer marked as a view,
built on the same underlying Buffer object. -/
def getitem (v : VertexBuffer) (index : Index) : Except PyErr VertexBuffer := do
  let (new_offset, new_stride, new_type, new_shape0, new_shape1) ←
    (match index with
     | .str s =>
       match v.vtype with
       | some (VType.fields fs) =>
         (match fs.lookup s with
          | Option.none => throw .valueError
          | some fieldinfo =>
            match v.shape with
            | Option.none => throw .typeError  -- `self._shape[0]` on None
            | some sh =>
              pure (fieldinfo.offset + v.offset, v.stride,
                    some (VType.scalar fieldinfo.dtypename), sh.1, fieldinfo.size))
       | _ => throw .runtimeError
     | .slice st sp ste => do
       let start := pyOr st 0
       let step := pyOr ste 1
       let stop ← sliceStop v.shape sp
       if start ≥ 0 then
         if step ≥ 1 then
           if stop > 0 then
             match v.shape with
             | Option.none => throw .typeError  -- `self._shape[1]` on None
             | some sh =>
               pure (start * v.stride + v.offset, step * v.stride,
                     v.vtype, (stop - start).fdiv step, sh.2)
           else throw .assertionError
         else throw .assertionError
       else throw .assertionError
     | .other => throw .valueError
     : Except PyErr (Int × Int × Option VType × Int × Nat))
  -- `VertexBuffer(buffer=self._buffer)` then overwrite the view fields
  pure { isview := true, bufref := v.bufref, offset := new_offset,
         stride := new_stride, shape := some (new_shape0, new_shape1),
         vtype := new_type }

end VertexBuffer

/-! ## Helper lemmas -/

@[simp] theorem exc_bind_ok {α β : Type} (a : α) (f : α → Except PyErr β) :
    (Except.ok a >>= f : Except PyErr β) = f a := rfl

@[simp] theorem exc_bind_err {α β : Type} (e : PyErr) (f : α → Except PyErr β) :
    (Except.error e >>= f : Except PyErr β) = Except.error e := rfl

@[simp] theorem exc_map_ok {α β : Type} (f : α → β) (a : α) :
    (f <$> Except.ok a : Except PyErr β) = Except.ok (f a) := rfl

@[simp] theorem exc_map_err {α β : Type} (f : α → β) (e : PyErr) :
    (f <$> Except.error e : Except PyErr β) = Except.error e := rfl

@[simp] theorem exc_throw {α : Type} (e : PyErr) :
    (throw e : Except PyErr α) = Except.error e := rfl

@[simp] theorem exc_pure {α : Type} (a : α) :
    (pure a : Except PyErr α) = Except.ok a := rfl

theorem pyOr_some_zero_default (s : Int) : VertexBuffer.pyOr (some s) 0 = s := by
  by_cases h : s = 0 <;> simp [VertexBuffer.pyOr, h]

theorem pyOr_some_of_ne (s d : Int) (h : s ≠ 0) : VertexBuffer.pyOr (some s) d = s := by
  simp [VertexBuffer.pyOr, h]

theorem pyOr_none (d : Int) : VertexBuffer.pyOr Option.none d = d := rfl

theorem sliceStop_of_shape (s0 : Int) (s1 : Nat) (sp : Option Int) :
    VertexBuffer.sliceStop (some (s0, s1)) sp = .ok (VertexBuffer.pyOr sp s0) := by
  cases sp with
  | none => rfl
  | some x =>
    by_cases h : x = 0 <;> simp [VertexBuffer.sliceStop, VertexBuffer.pyOr, h]

/-! ## Concrete fixtures for witnesses and counterexamples -/

def arrU8x8 : NDArray :=
  { dtype := { name := "uint8", itemsize := 1, fields := none }, shape := [8] }

def arrU8x4 : NDArray :=
  { dtype := { name := "uint8", itemsize := 1, fields := none }, shape := [4] }

def arrF32x100x3 : NDArray :=
  { dtype := { name := "float32", itemsize := 4, fields := none }, shape := [100, 3] }

def arrF64x5 : NDArray :=
  { dtype := { name := "float64", itemsize := 8, fields := none }, shape := [5] }

/-- A live Buffer holding an 8-byte allocation with nothing pending. -/
def bufLive8 : Buffer :=
  { target := GL_ARRAY_BUFFER, handle := 1, buffer_size := 8, pending_data := some none }

/-- A VertexBuffer over 4 float32 scalars (stride 4, shape (4, 1)). -/
def vbPlain : VertexBuffer :=
  { isview := false, bufref := 0, offset := 0, stride := 4,
    shape := some (4, 1), vtype := some (VType.scalar "float32") }

/-- A view derived from `vbPlain`. -/
def vbView : VertexBuffer := { vbPlain with isview := true }

def fiPos : FieldInfo := { dtypename := "float32", size := 3, offset := 0 }

def fiCol : FieldInfo := { dtypename := "uint8", size := 4, offset := 12 }

/-- A VertexBuffer over a structured record array with fields `pos` and
`col` (record size 16, 10 records). -/
def vbStruct : VertexBuffer :=
  { isview := false, bufref := 0, offset := 0, stride := 16,
    shape := some (10, 1),
    vtype := some (VType.fields [("pos", fiPos), ("col", fiCol)]) }

/-! ## Claims -/

/-- Claim C1: for `set_data` with no explicit offset on a Buffer with a live
handle: when the data's byte count equals the current buffer size, the staged
offset is 0 and the next `_enable` binds the existing handle and issues a
sub-range update (no handle deletion or recreation in the emitted call
trace); when the byte count differs, the staged offset stays `None` and the
next `_enable` deletes and recreates the handle and uploads the full
buffer. -/
theorem c1_set_data_enable_paths (b : Buffer) (data : NDArray) (freshHandle : Int)
    (hh : 0 < b.handle) :
    ((data.nbytes : Int) = b.buffer_size →
      b.set_data data none =
        .ok { b with pending_data := some (some (data, some 0)),
                     buffer_size := (data.nbytes : Int) } ∧
      Buffer.enable { b with pending_data := some (some (data, some 0)),
                             buffer_size := (data.nbytes : Int) } freshHandle =
        .ok ({ b with pending_data := some none, buffer_size := (data.nbytes : Int) },
             [GLCall.bindBuffer b.target b.handle,
              GLCall.bufferSubData b.target 0 data.nbytes,
              GLCall.bindBuffer b.target b.handle])) ∧
    ((data.nbytes : Int) ≠ b.buffer_size →
      b.set_data data none =
        .ok { b with pending_data := some (some (data, none)),
                     buffer_size := (data.nbytes : Int) } ∧
      Buffer.enable { b with pending_data := some (some (data, none)),
                             buffer_size := (data.nbytes : Int) } freshHandle =
        .ok ({ b with handle := freshHandle, pending_data := some none,
                      buffer_size := (data.nbytes : Int) },
             [GLCall.deleteBuffers b.handle, GLCall.genBuffers,
              GLCall.bindBuffer b.target freshHandle,
              GLCall.bufferData b.target data.nbytes,
              GLCall.bindBuffer b.target freshHandle])) := by
  have hb : ¬ b.handle < 0 := by omega
  constructor
  · intro h
    constructor
    · simp [Buffer.set_data, hb, h]
    · simp [Buffer.enable, hb]
  · intro h
    constructor
    · simp [Buffer.set_data, hb, h]
    · simp [Buffer.enable, Buffer.delete, Buffer.create, hb, hh]

/-- Witness for C1: the sub-range-update path at a live 8-byte buffer fed an
8-byte array. -/
theorem c1_witness :
    Buffer.enable { bufLive8 with pending_data := some (some (arrU8x8, some 0)),
                                  buffer_size := (arrU8x8.nbytes : Int) } 2 =
      .ok ({ bufLive8 with pending_data := some none,
                           buffer_size := (arrU8x8.nbytes : Int) },
           [GLCall.bindBuffer bufLive8.target bufLive8.handle,
            GLCall.bufferSubData bufLive8.target 0 arrU8x8.nbytes,
            GLCall.bindBuffer bufLive8.target bufLive8.handle]) :=
  ((c1_set_data_enable_paths bufLive8 arrU8x8 2 (by decide)).1 (by decide)).2

/-- Claim C2: slicing with nonnegative start, step at least 1 and positive
stop yields a view on the identical underlying Buffer reference, with
`(stop-start)//step` elements, stride multiplied by step, offset advanced by
`start*stride`, and the element type and component count unchanged. -/
theorem c2_slice_view (v : VertexBuffer) (s0 : Int) (s1 : Nat)
    (hshape : v.shape = some (s0, s1))
    (start stop step : Int)
    (hstart : 0 ≤ start) (hstep : 1 ≤ step) (hstop : 0 < stop) :
    v.getitem (VertexBuffer.Index.slice (some start) (some stop) (some step)) =
      .ok { isview := true, bufref := v.bufref,
            offset := start * v.stride + v.offset,
            stride := step * v.stride,
            shape := some ((stop - start).fdiv step, s1),
            vtype := v.vtype } := by
  have hstep0 : step ≠ 0 := by omega
  have hstop0 : stop ≠ 0 := by omega
  simp [VertexBuffer.getitem, hshape, sliceStop_of_shape,
        pyOr_some_zero_default, pyOr_some_of_ne _ _ hstep0, pyOr_some_of_ne _ _ hstop0,
        hstart, hstep, hstop, ge_iff_le, gt_iff_lt]

/-- Witness for C2 at `vbPlain` and the slice `[1:3:2]`. -/
theorem c2_witness :
    vbPlain.getitem (VertexBuffer.Index.slice (some 1) (some 3) (some 2)) =
      .ok { isview := true, bufref := vbPlain.bufref,
            offset := 1 * vbPlain.stride + vbPlain.offset,
            stride := 2 * vbPlain.stride,
            shape := some (((3 : Int) - 1).fdiv 2, 1),
            vtype := vbPlain.vtype } :=
  c2_slice_view vbPlain 4 1 rfl 1 3 2 (by decide) (by decide) (by decide)

/-- Claim C3: string indexing raises RuntimeError when `_type` is not a field
dict; on a field dict an unknown name raises ValueError, and a known name
yields a view on the same Buffer with the field's byte offset added, the
stride unchanged, the field's scalar dtype, and shape (current count, field
component count). -/
theorem c3_field_indexing (v : VertexBuffer) (s : String) :
    ((∀ fs, v.vtype ≠ some (VType.fields fs)) →
      v.getitem (VertexBuffer.Index.str s) = .error PyErr.runtimeError) ∧
    (∀ fs, v.vtype = some (VType.fields fs) →
      ((fs.lookup s = none →
        v.getitem (VertexBuffer.Index.str s) = .error PyErr.valueError) ∧
       (∀ fi s0 s1, fs.lookup s = some fi → v.shape = some (s0, s1) →
        v.getitem (VertexBuffer.Index.str s) =
          .ok { isview := true, bufref := v.bufref,
                offset := fi.offset + v.offset, stride := v.stride,
                shape := some (s0, fi.size),
                vtype := some (VType.scalar fi.dtypename) }))) := by
  refine ⟨?_, ?_⟩
  · intro hnf
    match hv : v.vtype with
    | Option.none => simp [VertexBuffer.getitem, hv]
    | some (VType.scalar n) => simp [VertexBuffer.getitem, hv]
    | some (VType.fields fs) => exact absurd hv (hnf fs)
  · intro fs hv
    refine ⟨?_, ?_⟩
    · intro hlk
      simp [VertexBuffer.getitem, hv, hlk]
    · intro fi s0 s1 hlk hsh
      simp [VertexBuffer.getitem, hv, hlk, hsh]

/-- Witness for C3: the known field `col` of `vbStruct`. -/
theorem c3_witness :
    vbStruct.getitem (VertexBuffer.Index.str "col") =
      .ok { isview := true, bufref := vbStruct.bufref,
            offset := fiCol.offset + vbStruct.offset, stride := vbStruct.stride,
            shape := some (10, fiCol.size),
            vtype := some (VType.scalar fiCol.dtypename) } :=
  ((c3_field_indexing vbStruct "col").2 [("pos", fiPos), ("col", fiCol)] rfl).2
    fiCol 10 1 (by decide) rfl

/-- Claim C4 (code bug): `Buffer.__init__` never assigns `_pending_data` and
calls no base initializer, so on a Buffer constructed without data the first
`_enable` reads the missing attribute and raises AttributeError instead of
finishing with a bind. -/
theorem c4_enable_fresh_buffer_attribute_error :
    (Buffer.init GL_ARRAY_BUFFER).bind (fun b => b.enable 1) =
      .error PyErr.attributeError := rfl

/-- Claim C5 (amended): a `buffer` argument is accepted whenever it is a
Buffer instance — its target is never inspected; a non-Buffer argument
raises ValueError; and with no argument a fresh `GL_ARRAY_BUFFER` Buffer is
allocated. -/
theorem c5_vertexbuffer_construct (hp : Heap) (r : Nat) :
    VertexBuffer.initFull hp none (BufferArg.buf r) = .ok (hp, VertexBuffer.fresh r) ∧
    VertexBuffer.initFull hp none BufferArg.other = .error PyErr.valueError ∧
    VertexBuffer.initFull hp none BufferArg.none =
      .ok (⟨hp.bufs ++ [{ target := GL_ARRAY_BUFFER, handle := 0, buffer_size := -1,
                          pending_data := none }]⟩,
           VertexBuffer.fresh hp.bufs.length) := by
  refine ⟨rfl, rfl, ?_⟩
  simp [VertexBuffer.initFull, Buffer.init, Heap.alloc, GL_ARRAY_BUFFER]

/-- The Buffer produced by `Buffer(gl.GL_ELEMENT_ARRAY_BUFFER)`. -/
def ebufC5 : Buffer :=
  { target := GL_ELEMENT_ARRAY_BUFFER, handle := 0, buffer_size := -1,
    pending_data := none }

/-- Claim C5 counterexample: constructing a VertexBuffer around a Buffer of
the index-storage kind succeeds, where the claim demands rejection with
ValueError. -/
theorem c5_counterexample :
    Buffer.init GL_ELEMENT_ARRAY_BUFFER = .ok ebufC5 ∧
    ebufC5.target = GL_ELEMENT_ARRAY_BUFFER ∧
    VertexBuffer.initFull ⟨[ebufC5]⟩ none (BufferArg.buf 0) =
      .ok (⟨[ebufC5]⟩, VertexBuffer.fresh 0) :=
  ⟨rfl, rfl, rfl⟩

/-- Claim C6: on a Buffer whose handle records a device failure (negative),
`_enable` returns immediately: no error, no state change, and an empty
device-call trace. -/
theorem c6_enable_failed_noop (b : Buffer) (freshHandle : Int)
    (h : b.handle < 0) :
    b.enable freshHandle = .ok (b, []) := by
  simp [Buffer.enable, h]

/-- Witness for C6 at a buffer with handle -1 and pending data. -/
theorem c6_witness :
    Buffer.enable { target := GL_ARRAY_BUFFER, handle := -1, buffer_size := 8,
                    pending_data := some (some (arrU8x8, none)) } 5 =
      .ok ({ target := GL_ARRAY_BUFFER, handle := -1, buffer_size := 8,
             pending_data := some (some (arrU8x8, none)) }, []) :=
  c6_enable_failed_noop _ 5 (by decide)

/-- Claim C7: `set_data` on a view raises RuntimeError before touching
anything, for every input data and offset. -/
theorem c7_set_data_on_view (hp : Heap) (v : VertexBuffer) (data : NDArray)
    (offset : Option Int) (h : v.isview = true) :
    VertexBuffer.set_data hp v data offset = .error PyErr.runtimeError := by
  simp [VertexBuffer.set_data, h]

/-- Witness for C7 at the view `vbView`. -/
theorem c7_witness :
    VertexBuffer.set_data ⟨[bufLive8]⟩ vbView arrU8x4 none =
      .error PyErr.runtimeError :=
  c7_set_data_on_view _ _ _ _ rfl

/-- Claim C8: a (100, 3) float32 array yields shape (100, 3), dtype name
float32 and stride 12; and every plain 1-D or 2-D array (second axis in
{1,2,3,4}) with an unsupported dtype is accepted and coerced to float32. -/
theorem c8_plain_data_and_coercion :
    (VertexBuffer.initFull ⟨[]⟩ (some arrF32x100x3) BufferArg.none =
      .ok (⟨[{ target := GL_ARRAY_BUFFER, handle := 0, buffer_size := 1200,
               pending_data := some (some (arrF32x100x3, none)) }]⟩,
           { isview := false, bufref := 0, offset := 0, stride := 12,
             shape := some (100, 3), vtype := some (VType.scalar "float32") })) ∧
    (∀ (data : NDArray) (n m : Nat),
      data.dtype.fields = none →
      (data.shape = [n] ∨ (data.shape = [n, m] ∧ (m = 1 ∨ m = 2 ∨ m = 3 ∨ m = 4))) →
      inDTYPES data.dtype.name = false →
      ∃ hp2 vb,
        VertexBuffer.initFull ⟨[]⟩ (some data) BufferArg.none = .ok (hp2, vb) ∧
        vb.vtype = some (VType.scalar "float32")) := by
  constructor
  · rfl
  · intro data n m hf hsh hd
    have hhf : data.dtype.hasFields = false := by simp [DType.hasFields, hf]
    have hnb : ((data.astypeFloat32.nbytes : Int) ≠ -1) := by
      have := Int.natCast_nonneg data.astypeFloat32.nbytes
      omega
    rcases hsh with hsh | ⟨hsh, hm⟩
    · simp [VertexBuffer.initFull, Buffer.init, Heap.alloc, Heap.get, Heap.put,
            VertexBuffer.set_data, VertexBuffer.fresh, Buffer.set_data,
            hhf, hsh, hd, hnb]
      exact ⟨_, _, ⟨rfl, rfl⟩, rfl⟩
    · simp [VertexBuffer.initFull, Buffer.init, Heap.alloc, Heap.get, Heap.put,
            VertexBuffer.set_data, VertexBuffer.fresh, Buffer.set_data,
            hhf, hsh, hd, hm, hnb]
      exact ⟨_, _, ⟨rfl, rfl⟩, rfl⟩

/-- Witness for C8's coercion branch: a 1-D float64 array of 5 elements. -/
theorem c8_witness :
    ∃ hp2 vb,
      VertexBuffer.initFull ⟨[]⟩ (some arrF64x5) BufferArg.none = .ok (hp2, vb) ∧
      vb.vtype = some (VType.scalar "float32") :=
  c8_plain_data_and_coercion.2 arrF64x5 5 1 rfl (Or.inl rfl) (by decide)

/-- Claim C9 counterexample: slicing `vbPlain` with stop == 0 does not fail
the assertion; the 0 is falsy, the default stop (the current count 4) is
used, and a view is produced. -/
theorem c9_counterexample :
    vbPlain.getitem (VertexBuffer.Index.slice none (some 0) none) =
      .ok { isview := true, bufref := 0, offset := 0, stride := 4,
            shape := some (4, 1), vtype := some (VType.scalar "float32") } := rfl

/-- Claim C9 (amended): slice components equal to 0 are falsy and fall back
to the defaults (start 0, step 1, stop = current count); after defaulting,
the slice fails the assertion exactly when start < 0, step < 1, or
stop <= 0, and otherwise produces the view. -/
theorem c9_slice_defaults (v : VertexBuffer) (s0 : Int) (s1 : Nat)
    (hshape : v.shape = some (s0, s1)) (st sp ste : Option Int) :
    (¬ (0 ≤ VertexBuffer.pyOr st 0 ∧ 1 ≤ VertexBuffer.pyOr ste 1 ∧
          0 < VertexBuffer.pyOr sp s0) →
      v.getitem (VertexBuffer.Index.slice st sp ste) =
        .error PyErr.assertionError) ∧
    ((0 ≤ VertexBuffer.pyOr st 0 ∧ 1 ≤ VertexBuffer.pyOr ste 1 ∧
          0 < VertexBuffer.pyOr sp s0) →
      v.getitem (VertexBuffer.Index.slice st sp ste) =
        .ok { isview := true, bufref := v.bufref,
              offset := VertexBuffer.pyOr st 0 * v.stride + v.offset,
              stride := VertexBuffer.pyOr ste 1 * v.stride,
              shape := some ((VertexBuffer.pyOr sp s0 - VertexBuffer.pyOr st 0).fdiv
                               (VertexBuffer.pyOr ste 1), s1),
              vtype := v.vtype }) := by
  constructor
  · intro hno
    simp only [VertexBuffer.getitem, sliceStop_of_shape _ s1 sp, hshape]
    by_cases h1 : 0 ≤ VertexBuffer.pyOr st 0
    · by_cases h2 : 1 ≤ VertexBuffer.pyOr ste 1
      · by_cases h3 : 0 < VertexBuffer.pyOr sp s0
        · exact absurd ⟨h1, h2, h3⟩ hno
        · simp [h1, h2, h3, ge_iff_le, gt_iff_lt]
      · simp [h1, h2, ge_iff_le]
    · simp [h1, ge_iff_le]
  · rintro ⟨h1, h2, h3⟩
    simp [VertexBuffer.getitem, sliceStop_of_shape _ s1 sp, hshape,
          h1, h2, h3, ge_iff_le, gt_iff_lt]

/-- Witness for C9: a negative explicit start fails the assertion. -/
theorem c9_witness :
    vbPlain.getitem (VertexBuffer.Index.slice (some (-1)) none none) =
      .error PyErr.assertionError :=
  (c9_slice_defaults vbPlain 4 1 rfl (some (-1)) none none).1 (by decide)

/-- Claim C10 (code bug): after a sub-range overwrite with an explicit
in-bounds offset (4 bytes at offset 0 into an 8-byte allocation),
`set_data` overwrites `_buffer_size` with the partial data's byte count 4,
although the device allocation still holds 8 bytes. -/
theorem c10_partial_update_clobbers_size :
    ((Buffer.init GL_ARRAY_BUFFER).bind (fun b => b.set_data arrU8x8 none)).bind
        (fun b => b.set_data arrU8x4 (some 0)) =
      .ok { target := GL_ARRAY_BUFFER, handle := 0, buffer_size := 4,
            pending_data := some (some (arrU8x4, some 0)) } := rfl

end Vbo
